import Mathlib

/-!
Verification of the LBANN bamboo command-construction helpers
(`bamboo/common_python/tools.py`): a shallow embedding of `check_list`,
`get_command` and `get_error_line`, together with theorems settling the
frozen claims about them.

Modelling conventions:
* Python `None`-able scalar parameters become `Option` values; the mixed-type
  list scanned by `check_list` becomes a list of `PyVal`.
* Machine integers are `Int` (no overflow is reachable: only comparisons and
  decimal formatting are performed on them).
* `math.ceil(float(p) / n)` is modelled as the exact integer ceiling
  `ceilDiv`; the inputs here are small integers, where float division is
  exact enough for the ceiling to agree.
* Environment lookups (`os.getenv`) and the executable-existence filesystem
  probe are passed in explicitly through an `Env` record.
* `raise Exception(...)` / `pytest.skip` become an `Except CmdError` result
  whose constructors record the raise site and whose payload is the message.
* `print` calls are silent no-ops and are not modelled.
-/

/-- A Python scalar value as it can appear in the mixed-type `strings` list
scanned by `check_list` (and as an `extra_lbann_flags` dict value). -/
inductive PyVal where
  | vnone
  | vstr (s : String)
  | vint (n : Int)
  | vbool (b : Bool)
deriving DecidableEq

/-- Python `str(v)` as used by `'{v}'.format` on the values we model. -/
def pyStrOf : PyVal → String
  | .vnone => "None"
  | .vstr s => s
  | .vint n => toString n
  | .vbool b => if b then "True" else "False"

/-- Python `'{n}'.format(n=x)` where `x` is an `Option Int` (prints `None`). -/
def pyShowOptInt : Option Int → String
  | none => "None"
  | some n => toString n

/-- Python `'{d}'.format(d=x)` where `x` is an `Option String` (prints `None`). -/
def pyShowOptStr : Option String → String
  | none => "None"
  | some s => s

/-- Does `l` start with `pat` (character lists)? -/
def listStartsWith : List Char → List Char → Bool
  | [], _ => true
  | _ :: _, [] => false
  | p :: ps, c :: cs => p == c && listStartsWith ps cs

/-- Python's `pat in s` on character lists: does `pat` occur contiguously in `l`? -/
def listHasSub (pat : List Char) : List Char → Bool
  | [] => listStartsWith pat []
  | c :: cs => listStartsWith pat (c :: cs) || listHasSub pat cs

/-- Python's substring test `pat in s`. -/
def strHasSub (s pat : String) : Bool := listHasSub pat.toList s.toList

/-- Python `', '.join`-style joining (here used with separator `" , "`). -/
def joinWith (sep : String) : List String → String
  | [] => ""
  | [x] => x
  | x :: xs => x ++ sep ++ joinWith sep xs

/-- `tools.check_list`: for each candidate value (in order), for each
blacklisted substring (in order), if the value is a string containing the
substring, record `"<value> contains <substring>"`. Non-`None` non-string
values are skipped by the `isinstance(string, str)` test. -/
def check_list (substrings : List String) : List PyVal → List String
  | [] => []
  | v :: rest =>
    (substrings.filterMap fun sub =>
      match v with
      | PyVal.vstr s => if strHasSub s sub then some (s ++ " contains " ++ sub) else none
      | _ => none) ++ check_list substrings rest

/-- Whether a scanned value is a string containing the given blacklisted
substring (the per-pair condition of `check_list`). -/
def pyStrViolates (v : PyVal) (sub : String) : Bool :=
  match v with
  | .vstr s => strHasSub s sub
  | _ => false

/-- The `extra_lbann_flags` argument: either a non-dict value (reported as a
usage error) or a dict, modelled as its entries in insertion order with the
(string) keys distinct, as they are in a Python dict. -/
inductive ExtraFlags where
  | notDict
  | dict (entries : List (String × PyVal))
deriving DecidableEq

/-- The keyword parameters of `tools.get_command`, one field per parameter. -/
structure CommandRequest where
  cluster : String
  executable : String
  num_nodes : Option Int
  num_processes : Option Int
  partition : Option String
  time_limit : Option Int
  ckpt_dir : Option String
  dir_name : Option String
  data_filedir_default : Option String
  data_filedir_train_default : Option String
  data_filename_train_default : Option String
  data_filedir_test_default : Option String
  data_filename_test_default : Option String
  data_reader_name : Option String
  data_reader_path : Option String
  data_reader_percent : Option String
  exit_after_setup : Bool
  metadata : Option String
  mini_batch_size : Option Int
  model_folder : Option String
  model_name : Option String
  model_path : Option String
  num_epochs : Option Int
  optimizer_name : Option String
  optimizer_path : Option String
  processes_per_model : Option Int
  extra_lbann_flags : Option ExtraFlags
  error_file_name : Option String
  output_file_name : Option String
  check_executable_existence : Bool
  return_tuple : Bool
  skip_no_exe : Bool
  weekly : Bool
deriving DecidableEq

/-- The ambient state read by `get_command`: the three environment variables
(presence and value) and whether the executable path exists on disk. -/
structure Env where
  slurm_job_num_nodes : Option String
  lsb_hosts : Option String
  lsb_jobid : Option String
  executable_exists : Bool
deriving DecidableEq

/-- An optional Python string as a `PyVal`. -/
def pvStr : Option String → PyVal
  | none => PyVal.vnone
  | some s => PyVal.vstr s

/-- An optional Python int as a `PyVal`. -/
def pvInt : Option Int → PyVal
  | none => PyVal.vnone
  | some n => PyVal.vint n

/-- The `strings` list assembled at the top of `get_command`, in source
order, extended with the extra-flag keys then values when a dict was
supplied. -/
def blacklistStrings (r : CommandRequest) : List PyVal :=
  [PyVal.vstr r.cluster, PyVal.vstr r.executable,
   pvInt r.num_nodes, pvInt r.num_processes, pvStr r.partition, pvInt r.time_limit,
   pvStr r.ckpt_dir, pvStr r.dir_name, pvStr r.data_filedir_default,
   pvStr r.data_filedir_train_default, pvStr r.data_filename_train_default,
   pvStr r.data_filedir_test_default, pvStr r.data_filename_test_default,
   pvStr r.data_reader_name, pvStr r.data_reader_path, pvStr r.data_reader_percent,
   PyVal.vbool r.exit_after_setup, pvStr r.metadata, pvInt r.mini_batch_size,
   pvStr r.model_folder, pvStr r.model_name, pvStr r.model_path,
   pvInt r.num_epochs, pvStr r.optimizer_name, pvStr r.optimizer_path,
   pvInt r.processes_per_model,
   pvStr r.error_file_name, pvStr r.output_file_name,
   PyVal.vbool r.check_executable_existence, PyVal.vbool r.return_tuple,
   PyVal.vbool r.skip_no_exe, PyVal.vbool r.weekly] ++
  (match r.extra_lbann_flags with
   | some (ExtraFlags.dict entries) =>
     entries.map (fun p => PyVal.vstr p.1) ++ entries.map (fun p => p.2)
   | _ => [])

/-- The blacklisted substrings of `get_command`. -/
def blacklist : List String := [";", "--"]

/-- Lines 84-92 of `tools.py`: default the time limit (35 normally, 360 for
weekly runs) and clamp anything above `MAX_TIME = 360` down to 360. -/
def resolveTimeLimit (time_limit : Option Int) (weekly : Bool) : Int :=
  let t := match time_limit with
    | none => if weekly then (360 : Int) else 35
    | some t => t
  if t > 360 then 360 else t

/-- The cluster-to-scheduler mapping of lines 99-104. -/
def schedulerOf (cluster : String) : Option String :=
  if cluster = "catalyst" ∨ cluster = "corona" ∨ cluster = "pascal" then some "slurm"
  else if cluster = "lassen" ∨ cluster = "ray" then some "lsf"
  else none

/-- Exact integer ceiling of `a / b` (for `b ≠ 0`), modelling
`int(math.ceil(float(a) / b))` on the integer inputs used here. -/
def ceilDiv (a b : Int) : Int := -((-a).fdiv b)

/-- The `ray`-only cap of the time limit at 480 minutes (lines 195-198),
applied inside the lsf allocation block. -/
def rayClamp (cluster : String) (t : Int) : Int :=
  if cluster = "ray" then (if t > 480 then 480 else t) else t

/-- The lsf allocation only happens when neither `LSB_HOSTS` nor `LSB_JOBID`
is set (line 161). -/
def lsfAllocating (env : Env) : Bool := env.lsb_hosts.isNone && env.lsb_jobid.isNone

/-- `time_limit` as seen by the lsf run-command builder: the ray clamp is a
mutation of the local variable inside the allocation block, so it persists
into the run command only when an allocation was performed. -/
def lsfTimeAfterAlloc (env : Env) (cluster : String) (t : Int) : Int :=
  if lsfAllocating env then rayClamp cluster t else t

/-- The slurm allocation segment (lines 110-141). `time_limit` is an `Int`
here because the resolution step has already replaced `None`, so the
source's `if time_limit is not None` is always true. -/
def slurmAllocate (env : Env) (r : CommandRequest) (time_limit : Int) : String :=
  if env.slurm_job_num_nodes.isNone then
    let option_num_nodes := match r.num_nodes with
      | some n => " --nodes=" ++ toString n
      | none => ""
    let option_partition := match r.partition with
      | some p =>
        -- pascal has no pdebug partition: silently switch to pbatch.
        let p := if r.cluster = "pascal" ∧ p = "pdebug" then "pbatch" else p
        " --partition=" ++ p
      | none => ""
    let option_time_limit := " --time=" ++ toString time_limit
    "salloc" ++ option_num_nodes ++ option_partition ++ option_time_limit
  else ""

/-- The slurm run segment (lines 144-155). -/
def slurmRun (r : CommandRequest) (time_limit : Int) (command_allocate : String) : String :=
  let space := if command_allocate = "" then "" else " "
  let option_num_processes := match r.num_processes with
    | some n => " --ntasks=" ++ toString n
    | none => ""
  space ++ "srun --mpibind=off --time=" ++ toString time_limit ++ option_num_processes

/-- The lsf allocation segment (lines 159-206), concatenated in the order of
line 201: exclusive, group, interactive, num_processes, partition,
num_nodes, processes_per_node, time_limit. -/
def lsfAllocate (env : Env) (r : CommandRequest) (time_limit : Int) : String :=
  if lsfAllocating env then
    let option_exclusive := if r.cluster ≠ "lassen" then " -x" else ""
    let option_num_nodes :=
      if r.cluster = "lassen" then " -nnodes " ++ pyShowOptInt r.num_nodes else ""
    let option_num_processes :=
      if r.cluster = "lassen" then ""
      else match r.num_processes with
        | some p => " -n " ++ toString p
        | none => ""
    let option_processes_per_node :=
      if r.cluster = "lassen" then ""
      else match r.num_processes, r.num_nodes with
        | some p, some n =>
          if n ≠ 0 then " -R \"span[ptile=" ++ toString (ceilDiv p n) ++ "]\"" else ""
        | _, _ => ""
    let option_partition := match r.partition with
      | some q => " -q " ++ q
      | none => ""
    let option_time_limit := " -W " ++ toString (rayClamp r.cluster time_limit)
    "bsub" ++ option_exclusive ++ " -G guests" ++ " -Is" ++ option_num_processes ++
      option_partition ++ option_num_nodes ++ option_processes_per_node ++ option_time_limit
  else ""

/-- The lsf run segment (lines 209-249): `jsrun` with fixed binding flags and
a process count capped at 16 on lassen, `mpirun --timeout` elsewhere. -/
def lsfRun (env : Env) (r : CommandRequest) (time_limit : Int) (command_allocate : String) :
    String :=
  let time_limit := lsfTimeAfterAlloc env r.cluster time_limit
  let space := if command_allocate = "" then "" else " "
  if r.cluster = "lassen" then
    match r.num_processes with
    | some p =>
      -- Avoid `nrs should not be greater than rs_per_host * number of servers`.
      let p := if p > 16 then (16 : Int) else p
      space ++ "jsrun" ++ " -b \"packed:10\"" ++ " -c 40" ++ " -g 4" ++ " -d packed" ++
        " -n " ++ toString p ++ " -r 1" ++ " -a 4"
    | none => space ++ "jsrun"
  else
    match r.num_processes with
    | some p =>
      let option_processes_per_node := match r.num_nodes with
        | some n => if n ≠ 0 then " -N " ++ toString (ceilDiv p n) else ""
        | none => ""
      space ++ "mpirun --timeout=" ++ toString time_limit ++ " -np " ++ toString p ++
        option_processes_per_node
    | none => space ++ "mpirun --timeout=" ++ toString time_limit

/-- Consume leading ASCII digits, returning how many and the remainder. -/
def spanDigits : List Char → Nat × List Char
  | [] => (0, [])
  | c :: cs =>
    if c.isDigit then
      let (n, rest) := spanDigits cs
      (n + 1, rest)
    else (0, c :: cs)

/-- Exponent digits (after an optional sign): at least one digit and
nothing else. -/
def expDigits (l : List Char) : Bool :=
  let l := match l with
    | '+' :: rest => rest
    | '-' :: rest => rest
    | rest => rest
  let (n, rest) := spanDigits l
  n > 0 && rest == []

/-- Optional exponent part of a float literal. -/
def expOk : List Char → Bool
  | [] => true
  | 'e' :: rest => expDigits rest
  | 'E' :: rest => expDigits rest
  | _ => false

/-- Mantissa (optionally with a decimal point) followed by an optional
exponent. -/
def floatBodyOk (l : List Char) : Bool :=
  let (n1, rest1) := spanDigits l
  match rest1 with
  | '.' :: rest2 =>
    let (n2, rest3) := spanDigits rest2
    (n1 + n2 > 0) && expOk rest3
  | rest2 => n1 > 0 && expOk rest2

/-- Models CPython `float(s)` acceptance on ordinary decimal and exponent
literals (the whitespace trimming, underscore and inf/nan forms of the
builtin are not exercised by this code base). -/
def pyFloatOk (s : String) : Bool :=
  match s.toList with
  | '+' :: rest => floatBodyOk rest
  | '-' :: rest => floatBodyOk rest
  | rest => floatBodyOk rest

/-- Is the character an ASCII lowercase letter (the regex class `[a-z]`)? -/
def isLowAZ (c : Char) : Bool := 'a' ≤ c && c ≤ 'z'

/-- `re.sub('[a-z]scratch[a-z]', repl, s)` on character lists: replace every
leftmost non-overlapping match of a lowercase letter, the literal
`scratch`, and a lowercase letter. -/
def subScratchChars (repl : List Char) : List Char → List Char
  | a :: 's' :: 'c' :: 'r' :: 'a' :: 't' :: 'c' :: 'h' :: b :: rest =>
    if isLowAZ a && isLowAZ b then repl ++ subScratchChars repl rest
    else a :: subScratchChars repl ('s' :: 'c' :: 'r' :: 'a' :: 't' :: 'c' :: 'h' :: b :: rest)
  | c :: cs => c :: subScratchChars repl cs
  | [] => []

/-- `re.sub('[a-z]scratch[a-z]', repl, s)` on strings. -/
def subScratch (repl s : String) : String :=
  String.mk (subScratchChars repl.toList s.toList)

/-- `re.sub('labels', 'original/labels', s)` on character lists. -/
def subLabelsChars : List Char → List Char
  | 'l' :: 'a' :: 'b' :: 'e' :: 'l' :: 's' :: rest =>
    "original/labels".toList ++ subLabelsChars rest
  | c :: cs => c :: subLabelsChars cs
  | [] => []

/-- `re.sub('labels', 'original/labels', s)` on strings. -/
def subLabels (s : String) : String := String.mk (subLabelsChars s.toList)

/-- The model / data-reader / optimizer resolution block (lines 270-315):
its accumulated errors, in append order, and the three options it leaves
behind. -/
structure ModelBlockOut where
  errs : List String
  option_model : String
  option_data_reader : String
  option_optimizer : String
deriving DecidableEq

/-- Lines 270-315 of `get_command`. -/
def modelBlock (r : CommandRequest) : ModelBlockOut :=
  let option_model := match r.model_path with
    | some p => " --model=" ++ p
    | none => ""
  let option_data_reader := match r.data_reader_path with
    | some p => " --reader=" ++ p
    | none => ""
  let option_optimizer := match r.optimizer_path with
    | some p => " --optimizer=" ++ p
    | none => ""
  match r.dir_name with
  | some d =>
    let modelStep : List String × String :=
      match r.model_path with
      | some _ =>
        if r.model_folder.isSome || r.model_name.isSome then
          (["model_path is set but so is at least one of model folder and model_name"],
           option_model)
        else ([], option_model)
      | none =>
        match r.model_folder, r.model_name with
        | some f, some m =>
          ([], " --model=" ++ d ++ "/model_zoo/" ++ f ++ "/model_" ++ m ++ ".prototext")
        | some _, none => (["model_folder set but not model_name."], option_model)
        | none, some _ => (["model_name set but not model_folder."], option_model)
        | none, none => ([], option_model)
    let readerStep : List String × String :=
      match r.data_reader_name with
      | some nm =>
        if r.data_reader_path.isSome then
          (["data_reader_path is set but so is data_reader_name"], option_data_reader)
        else
          ([], " --reader=" ++ d ++ "/model_zoo/data_readers/data_reader_" ++ nm ++
            ".prototext")
      | none => ([], option_data_reader)
    let optimizerStep : List String × String :=
      match r.optimizer_name with
      | some nm =>
        if r.optimizer_path.isSome then
          (["optimizer_path is set but so is optimizer_name"], option_optimizer)
        else
          ([], " --optimizer=" ++ d ++ "/model_zoo/optimizers/opt_" ++ nm ++ ".prototext")
      | none => ([], option_optimizer)
    let dirOnlyErrs : List String :=
      if !r.model_folder.isSome && !r.model_name.isSome && !r.data_reader_name.isSome &&
          !r.optimizer_name.isSome then
        ["dir_name set but none of model_folder, model_name, data_reader_name, optimizer_name are."]
      else []
    ⟨modelStep.1 ++ readerStep.1 ++ optimizerStep.1 ++ dirOnlyErrs,
     modelStep.2, readerStep.2, optimizerStep.2⟩
  | none =>
    let errs :=
      if r.model_folder.isSome || r.model_name.isSome || r.data_reader_name.isSome ||
          r.optimizer_name.isSome then
        ["dir_name is not set but at least one of model_folder, model_name, data_reader_name, optimizer_name is."]
      else []
    ⟨errs, option_model, option_data_reader, option_optimizer⟩

/-- `data_file_parameters` (lines 316-319). -/
def dataFileParams (r : CommandRequest) : List (Option String) :=
  [r.data_filedir_train_default, r.data_filename_train_default,
   r.data_filedir_test_default, r.data_filename_test_default]

/-- The five data-location options produced by lines 320-359. -/
structure DataDirOut where
  option_data_filedir : String
  option_data_filedir_train : String
  option_data_filename_train : String
  option_data_filedir_test : String
  option_data_filename_test : String
deriving DecidableEq

/-- Lines 320-359 of `get_command`: per-cluster data path rewriting.
On catalyst/corona/pascal no flag is passed; lassen rewrites the scratch
mount to `gpfs1` (and `labels` to `original/labels` in filenames); ray
rewrites the scratch mount to `gscratchr`. -/
def dataDirOptions (r : CommandRequest) : DataDirOut :=
  match r.data_filedir_default with
  | some dfd =>
    if r.cluster = "lassen" then
      ⟨" --data_filedir=" ++ subScratch "gpfs1" dfd, "", "", "", ""⟩
    else if r.cluster = "ray" then
      ⟨" --data_filedir=" ++ subScratch "gscratchr" dfd, "", "", "", ""⟩
    else ⟨"", "", "", "", ""⟩
  | none =>
    match r.data_filedir_train_default, r.data_filename_train_default,
          r.data_filedir_test_default, r.data_filename_test_default with
    | some fdtr, some fntr, some fdte, some fnte =>
      if r.cluster = "lassen" then
        ⟨"", " --data_filedir_train=" ++ subScratch "gpfs1" fdtr,
         " --data_filename_train=" ++ subLabels (subScratch "gpfs1" fntr),
         " --data_filedir_test=" ++ subScratch "gpfs1" fdte,
         " --data_filename_test=" ++ subLabels (subScratch "gpfs1" fnte)⟩
      else if r.cluster = "ray" then
        ⟨"", " --data_filedir_train=" ++ subScratch "gscratchr" fdtr,
         " --data_filename_train=" ++ subScratch "gscratchr" fntr,
         " --data_filedir_test=" ++ subScratch "gscratchr" fdte,
         " --data_filename_test=" ++ subScratch "gscratchr" fnte⟩
      else ⟨"", "", "", "", ""⟩
    | _, _, _, _ => ⟨"", "", "", "", ""⟩

/-- The data-location consistency errors of lines 360-396. -/
def dataLocErrors (r : CommandRequest) : List String :=
  if r.data_reader_name.isSome || r.data_reader_path.isSome then
    if r.data_filedir_default.isSome then
      if dataFileParams r ≠ [none, none, none, none] then
        ["data_fildir_default set but so is at least one of [data_filedir_train_default, data_filename_train_default, data_filedir_test_default, data_filename_test_default]"]
      else []
    else
      if dataFileParams r = [none, none, none, none] then
        if r.data_reader_name ≠ some "synthetic" then
          ["data_reader_name or data_reader_path is set but not data_filedir_default. If a data reader is provided, the default filedir must be set. This allows for determining what the filedir should be on each cluster. Alternatively, some or all of [data_filedir_train_default, data_filename_train_default, data_filedir_test_default, data_filename_test_default] can be set."]
        else []
      else []
  else
    if r.data_filedir_default.isSome then
      ["data_filedir_default set but neither data_reader_name or data_reader_path are."]
    else if (dataFileParams r).filter (fun x => x.isSome) ≠ [] then
      ["At least one of [data_filedir_train_default, data_filename_train_default, data_filedir_test_default, data_filename_test_default] is set, but neither data_reader_name or data_reader_path are."]
    else []

/-- Lines 397-413: the `data_reader_percent` parse check and flag. The flag
is always emitted; for a supplied literal Python reformats the parsed
float, which on the canonical literals used by this test suite is the
identity, and is modelled as such. -/
def dataReaderPercentOut (r : CommandRequest) : List String × String :=
  match r.data_reader_percent with
  | some s =>
    if pyFloatOk s then ([], " --data_reader_percent=" ++ s)
    else (["data_reader_percent=" ++ s ++ " is not a float."],
          " --data_reader_percent=" ++ s)
  | none =>
    if r.weekly then ([], " --data_reader_percent=1.0")
    else ([], " --data_reader_percent=0.1")

/-- The extra-flags allow-list (lines 434-482), in source order. -/
def allowed_flags : List String :=
  ["block_size", "procs_per_trainer", "num_gpus", "num_parallel_readers",
   "num_io_threads", "serialize_io", "disable_background_io_activity",
   "disable_cuda", "random_seed", "objective_function", "data_layout",
   "print_affinity", "use_data_store", "preload_data_store", "super_node",
   "write_sample_list", "ltfb_verbose", "ckpt_dir",
   "index_list_train", "index_list_test", "label_filename_train",
   "label_filename_test", "share_testing_data_readers",
   "image_dir", "no_im_comm"]

/-- Python `str` of a list of strings, as `'{flags}'.format` prints the
allow-list. -/
def pyListRepr (l : List String) : String :=
  "[" ++ joinWith ", " (l.map (fun s => "\x27" ++ s ++ "\x27")) ++ "]"

/-- Lexicographic (code point) comparison of character lists, as Python
compares strings. -/
def charListLt : List Char → List Char → Bool
  | [], [] => false
  | [], _ :: _ => true
  | _ :: _, [] => false
  | a :: as, b :: bs => a < b || (a == b && charListLt as bs)

/-- Python string `<`. -/
def strLt (a b : String) : Bool := charListLt a.toList b.toList

/-- Insert an entry into a key-sorted list of flag entries. -/
def insertSorted (p : String × PyVal) : List (String × PyVal) → List (String × PyVal)
  | [] => [p]
  | q :: qs => if strLt p.1 q.1 || p.1 == q.1 then p :: q :: qs else q :: insertSorted p qs

/-- `sorted(extra_lbann_flags.items())`: dict keys are distinct, so sorting
the pairs is sorting by key. -/
def sortByKey : List (String × PyVal) → List (String × PyVal)
  | [] => []
  | p :: ps => insertSorted p (sortByKey ps)

/-- Lines 427-493: iterate the extra flags in sorted key order, emitting
`--flag=value` (or a bare `--flag` for a `None` value) for allow-listed
flags and recording an error for any other flag. -/
def extraFlagsOut (r : CommandRequest) : List String × String :=
  match r.extra_lbann_flags with
  | none => ([], "")
  | some ExtraFlags.notDict => ([], "")
  | some (ExtraFlags.dict entries) =>
    (sortByKey entries).foldl
      (fun acc fv =>
        if allowed_flags.contains fv.1 then
          match fv.2 with
          | PyVal.vnone => (acc.1, acc.2 ++ " --" ++ fv.1)
          | v => (acc.1, acc.2 ++ " --" ++ fv.1 ++ "=" ++ pyStrOf v)
        else
          (acc.1 ++ ["extra_lbann_flags includes invalid flag=" ++ fv.1 ++
            ". Flags must be in " ++ pyListRepr allowed_flags ++ "."], acc.2))
      ([], "")

/-- The `extra_lbann_flags must be a dict` error appended at line 72 before
anything else reaches `lbann_errors`. -/
def extraFlagsDictError (r : CommandRequest) : List String :=
  match r.extra_lbann_flags with
  | some ExtraFlags.notDict =>
    ["extra_lbann_flags must be a dict e.g. `\x7bflag : None, flag: 4\x7d`. Use `None` if a flag has no value attached to it."]
  | _ => []

/-- Every message appended to `lbann_errors`, in the order the source
appends them: the dict-shape error, then the model/reader/optimizer block,
the data-location block, the percent parse check, and the extra-flag
allow-list check. -/
def lbannErrors (r : CommandRequest) : List String :=
  extraFlagsDictError r ++ (modelBlock r).errs ++ dataLocErrors r ++
    (dataReaderPercentOut r).1 ++ (extraFlagsOut r).1

/-- `--exit_after_setup` (line 414). -/
def optionExitAfterSetup (r : CommandRequest) : String :=
  if r.exit_after_setup then " --exit_after_setup" else ""

/-- `--metadata={dir_name}/{metadata}` (line 416): note that `dir_name` is
interpolated with `format`, so a missing `dir_name` prints as `None`. -/
def optionMetadata (r : CommandRequest) : String :=
  match r.metadata with
  | some m => " --metadata=" ++ pyShowOptStr r.dir_name ++ "/" ++ m
  | none => ""

/-- `--mini_batch_size=%d` (line 418). -/
def optionMiniBatchSize (r : CommandRequest) : String :=
  match r.mini_batch_size with
  | some n => " --mini_batch_size=" ++ toString n
  | none => ""

/-- `--num_epochs=%d` (line 420). -/
def optionNumEpochs (r : CommandRequest) : String :=
  match r.num_epochs with
  | some n => " --num_epochs=" ++ toString n
  | none => ""

/-- `--procs_per_model=%d` (line 422). -/
def optionProcessesPerModel (r : CommandRequest) : String :=
  match r.processes_per_model with
  | some n => " --procs_per_model=" ++ toString n
  | none => ""

/-- `--ckpt_dir=%s` (line 424). -/
def optionCkptDir (r : CommandRequest) : String :=
  match r.ckpt_dir with
  | some s => " --ckpt_dir=" ++ s
  | none => ""

/-- `command_lbann` (lines 497-504): the executable followed by the options
in the fixed source order. -/
def lbannCommand (r : CommandRequest) : String :=
  r.executable ++ optionCkptDir r ++ (dataDirOptions r).option_data_filedir ++
    (dataDirOptions r).option_data_filedir_train ++
    (dataDirOptions r).option_data_filename_train ++
    (dataDirOptions r).option_data_filedir_test ++
    (dataDirOptions r).option_data_filename_test ++
    (modelBlock r).option_data_reader ++ (dataReaderPercentOut r).2 ++
    optionExitAfterSetup r ++ optionMetadata r ++ optionMiniBatchSize r ++
    (modelBlock r).option_model ++ optionNumEpochs r ++ (modelBlock r).option_optimizer ++
    optionProcessesPerModel r ++ (extraFlagsOut r).2

/-- `command_redirect` (lines 506-513). -/
def commandRedirect (r : CommandRequest) : String :=
  (match r.output_file_name with
   | some f => " > " ++ f
   | none => "") ++
  (match r.error_file_name with
   | some f => " 2> " ++ f
   | none => "")

/-- The allocation segment dispatched on the resolved scheduler. The final
fallback is unreachable: `get_command` has already raised on an
unsupported cluster. -/
def commandAllocate (env : Env) (r : CommandRequest) : String :=
  let time_limit := resolveTimeLimit r.time_limit r.weekly
  match schedulerOf r.cluster with
  | some "slurm" => slurmAllocate env r time_limit
  | some "lsf" => lsfAllocate env r time_limit
  | _ => ""

/-- The run segment dispatched on the resolved scheduler (same unreachable
fallback as `commandAllocate`). -/
def commandRun (env : Env) (r : CommandRequest) : String :=
  let time_limit := resolveTimeLimit r.time_limit r.weekly
  match schedulerOf r.cluster with
  | some "slurm" => slurmRun r time_limit (slurmAllocate env r time_limit)
  | some "lsf" => lsfRun env r time_limit (lsfAllocate env r time_limit)
  | _ => ""

/-- The distinct raise sites of `get_command`, with the exception message.
`skipTest` stands for the `pytest.skip` escape of
`process_executable_existence` when `skip_no_exe` is set; `execMissing`
for its `raise` when it is not. -/
inductive CmdError where
  | invalidChars (msg : String)
  | skipTest (msg : String)
  | execMissing (msg : String)
  | unsupportedCluster (msg : String)
  | invalidUsage (msg : String)
deriving DecidableEq

/-- `tools.get_command`: the blacklist gate, the executable-existence check,
the scheduler dispatch and the accumulated-error gate, in the source's
raise order, returning the 4-tuple `(allocate, run, lbann, redirect)` of
line 515 (the `return_tuple` switch only changes presentation, not
content). -/
def get_command (env : Env) (r : CommandRequest) :
    Except CmdError (String × String × String × String) :=
  let invalid_character_errors := check_list blacklist (blacklistStrings r)
  if invalid_character_errors ≠ [] then
    Except.error (CmdError.invalidChars
      ("Invalid character(s): " ++ joinWith " , " invalid_character_errors))
  else if r.check_executable_existence && !env.executable_exists then
    (if r.skip_no_exe then
      Except.error (CmdError.skipTest ("Executable does not exist: " ++ r.executable))
    else
      Except.error (CmdError.execMissing ("Executable does not exist: " ++ r.executable)))
  else
    match schedulerOf r.cluster with
    | none => Except.error (CmdError.unsupportedCluster ("Unsupported Cluster: " ++ r.cluster))
    | some _ =>
      if lbannErrors r ≠ [] then
        Except.error (CmdError.invalidUsage
          ("Invalid Usage: " ++ joinWith " , " (lbannErrors r)))
      else
        Except.ok (commandAllocate env r, commandRun env r, lbannCommand r,
          commandRedirect r)

/-- The first group of failure markers of `get_error_line` (lines 606-610). -/
def errMarkerA (line : String) : Bool :=
  strHasSub line "ERROR" || strHasSub line "LBANN error" || strHasSub line "Error:" ||
    strHasSub line "Expired or invalid job" ||
    strHasSub line "Segmentation fault (core dumped)" ||
    strHasSub line "Relinquishing job allocation"

/-- The second group of markers (lines 613-614), which return the previous
line instead. -/
def errMarkerB (line : String) : Bool :=
  strHasSub line "Stack trace:" || strHasSub line "Error is not recoverable: exiting now"

/-- The scanning loop of `get_error_line`, carrying `previous_line`. -/
def errScan (previous_line : String) : List String → String
  | [] => ""
  | line :: rest =>
    if errMarkerA line then line
    else if errMarkerB line then previous_line
    else errScan line rest

/-- `tools.get_error_line` on the list of lines of the log file (file
opening is outside the model). -/
def get_error_line (lines : List String) : String := errScan "" lines

/-- The index of the first line containing any failure marker, if any. -/
def findMarkerIdx : List String → Option Nat
  | [] => none
  | l :: ls =>
    if errMarkerA l || errMarkerB l then some 0
    else (findMarkerIdx ls).map (fun i => i + 1)

/-- `get_error_line` as the claim states it: the first line containing a
group-A marker is returned verbatim; if a group-B line comes first, the
immediately preceding line is returned (the empty string when the group-B
line is the first line of the log); if no marker is found, the empty
string. -/
def errorLineClaim (lines : List String) : String :=
  match findMarkerIdx lines with
  | none => ""
  | some i =>
    if errMarkerA (lines.getD i "") then lines.getD i ""
    else if i = 0 then "" else lines.getD (i - 1) ""

/-- A request with the two required parameters and everything else at its
Python default, used as the base of the concrete instances below. -/
def plainReq : CommandRequest :=
  { cluster := "catalyst", executable := "exe",
    num_nodes := none, num_processes := none, partition := none, time_limit := none,
    ckpt_dir := none, dir_name := none, data_filedir_default := none,
    data_filedir_train_default := none, data_filename_train_default := none,
    data_filedir_test_default := none, data_filename_test_default := none,
    data_reader_name := none, data_reader_path := none, data_reader_percent := none,
    exit_after_setup := false, metadata := none, mini_batch_size := none,
    model_folder := none, model_name := none, model_path := none,
    num_epochs := none, optimizer_name := none, optimizer_path := none,
    processes_per_model := none, extra_lbann_flags := none,
    error_file_name := none, output_file_name := none,
    check_executable_existence := false, return_tuple := false,
    skip_no_exe := true, weekly := false }

/-- An environment with no pre-existing allocation and an existing
executable. -/
def envFree : Env :=
  { slurm_job_num_nodes := none, lsb_hosts := none, lsb_jobid := none,
    executable_exists := true }

/-- An environment in which both slurm and lsf report an existing
allocation. -/
def envAllocated : Env :=
  { slurm_job_num_nodes := some "2", lsb_hosts := some "h1", lsb_jobid := some "77",
    executable_exists := true }

-- Equality of `get_command` results is decidable, so concrete runs can be
-- checked by evaluation.
deriving instance DecidableEq for Except

/-- A request whose executable name contains both blacklisted substrings. -/
def reqC1 : CommandRequest := { plainReq with executable := "run;me--x" }

/-- A request with two independent application-flag violations
(`model_folder` without `model_name`, and `optimizer_path` together with
`optimizer_name`). -/
def reqC2 : CommandRequest :=
  { plainReq with
      dir_name := some "d", model_folder := some "f",
      optimizer_name := some "o", optimizer_path := some "p" }

/-- Both `model_path` and `model_folder` set, but `dir_name` left unset. -/
def reqC4 : CommandRequest :=
  { plainReq with model_path := some "mp", model_folder := some "mf" }

/-- Both `model_path` and `model_folder` set, with `dir_name` also set. -/
def reqC4a : CommandRequest :=
  { plainReq with
      dir_name := some "d", model_path := some "mp", model_folder := some "mf" }

/-- An lsf request on `ray` with process count, node count, partition and
time limit all supplied. -/
def reqC5 : CommandRequest :=
  { plainReq with
      cluster := "ray", num_processes := some 4, num_nodes := some 2,
      partition := some "pbatch", time_limit := some 60 }

/-- The lsf allocation segment in the flag order stated by claim C5:
exclusive-host, group, interactive, then the node-count flag (lassen) or
the task-count and processes-per-host flags (otherwise), THEN the
queue/partition flag, then the time-limit flag. The source instead emits
the queue flag between the task-count flag and the node-count /
processes-per-host flags. -/
def c5SpecAllocation (r : CommandRequest) : String :=
  "bsub" ++ (if r.cluster = "lassen" then "" else " -x") ++ " -G guests" ++ " -Is" ++
    (if r.cluster = "lassen" then " -nnodes " ++ pyShowOptInt r.num_nodes
     else
       (match r.num_processes with
        | some p => " -n " ++ toString p
        | none => "") ++
       (match r.num_processes, r.num_nodes with
        | some p, some n =>
          if n ≠ 0 then " -R \"span[ptile=" ++ toString (ceilDiv p n) ++ "]\"" else ""
        | _, _ => "")) ++
    (match r.partition with
     | some q => " -q " ++ q
     | none => "") ++
    " -W " ++ toString (rayClamp r.cluster (resolveTimeLimit r.time_limit r.weekly))

/-- A lassen request asking for 32 processes. -/
def reqC6 : CommandRequest :=
  { plainReq with cluster := "lassen", num_processes := some 32 }

/-- A lassen request with a partition but no node count. -/
def reqC9 : CommandRequest :=
  { plainReq with cluster := "lassen", partition := some "pbatch" }

/-- A request with `metadata` set while `dir_name` stays unset. -/
def reqC10 : CommandRequest := { plainReq with metadata := some "meta.txt" }

theorem listStartsWith_append (pat rest : List Char) :
    listStartsWith pat (pat ++ rest) = true := by
  induction pat with
  | nil => rfl
  | cons c cs ih => simp [listStartsWith, ih]

theorem listHasSub_of_startsWith {pat l : List Char} (h : listStartsWith pat l = true) :
    listHasSub pat l = true := by
  cases l with
  | nil => simpa [listHasSub] using h
  | cons c cs => simp [listHasSub, h]

theorem listHasSub_append_middle (pre pat post : List Char) :
    listHasSub pat (pre ++ (pat ++ post)) = true := by
  induction pre with
  | nil => exact listHasSub_of_startsWith (listStartsWith_append pat post)
  | cons c cs ih => simp [listHasSub, ih]

theorem strHasSub_of_split (s a pre post : String) (h : s = pre ++ (a ++ post)) :
    strHasSub s a = true := by
  subst h
  show listHasSub a.data ((pre ++ (a ++ post)).data) = true
  rw [String.data_append, String.data_append]
  exact listHasSub_append_middle pre.data a.data post.data

theorem joinWith_mem_split {a : String} {l : List String} (sep : String) (h : a ∈ l) :
    ∃ p q, joinWith sep l = p ++ (a ++ q) := by
  induction l with
  | nil => cases h
  | cons x xs ih =>
    rcases List.mem_cons.1 h with h1 | h2
    · subst h1
      cases xs with
      | nil => exact ⟨"", "", by simp [joinWith, String.empty_append, String.append_empty]⟩
      | cons y ys =>
        refine ⟨"", sep ++ joinWith sep (y :: ys), ?_⟩
        simp [joinWith, String.empty_append, String.append_assoc]
    · rcases ih h2 with ⟨p, q, hp⟩
      cases xs with
      | nil => cases h2
      | cons y ys =>
        refine ⟨x ++ sep ++ p, q, ?_⟩
        simp [joinWith, hp, String.append_assoc]

theorem strHasSub_joinWith {a pre : String} {l : List String} (sep : String) (h : a ∈ l) :
    strHasSub (pre ++ joinWith sep l) a = true := by
  rcases joinWith_mem_split sep h with ⟨p, q, hp⟩
  exact strHasSub_of_split _ _ (pre ++ p) q (by rw [hp, String.append_assoc])

/-- Inversion for a successful `get_command`: the result is the 4-tuple of
segment builders and the accumulated error list was empty. -/
theorem get_command_ok {env : Env} {r : CommandRequest}
    {out : String × String × String × String}
    (h : get_command env r = Except.ok out) :
    out = (commandAllocate env r, commandRun env r, lbannCommand r, commandRedirect r) ∧
      lbannErrors r = [] := by
  simp only [get_command] at h
  by_cases hc : check_list blacklist (blacklistStrings r) ≠ []
  · rw [if_pos hc] at h; cases h
  · rw [if_neg hc] at h
    by_cases he : (r.check_executable_existence && !env.executable_exists) = true
    · rw [if_pos he] at h
      by_cases hs : r.skip_no_exe = true
      · rw [if_pos hs] at h; cases h
      · rw [if_neg hs] at h; cases h
    · rw [if_neg he] at h
      cases hs : schedulerOf r.cluster with
      | none => rw [hs] at h; cases h
      | some s =>
        rw [hs] at h
        by_cases hl : lbannErrors r ≠ []
        · rw [if_pos hl] at h; cases h
        · rw [if_neg hl] at h
          cases h
          exact ⟨rfl, not_not.mp hl⟩

theorem listStartsWith_extend {pat l : List Char} (t : List Char)
    (h : listStartsWith pat l = true) : listStartsWith pat (l ++ t) = true := by
  induction pat generalizing l with
  | nil => rfl
  | cons p ps ih =>
    cases l with
    | nil => cases h
    | cons c cs =>
      simp only [listStartsWith, Bool.and_eq_true] at h
      simp [listStartsWith, h.1, ih h.2]

theorem listHasSub_append_right {pat s : List Char} (t : List Char)
    (h : listHasSub pat s = true) : listHasSub pat (s ++ t) = true := by
  induction s with
  | nil =>
    simp only [listHasSub] at h
    exact listHasSub_of_startsWith (listStartsWith_extend t h)
  | cons c cs ih =>
    simp only [listHasSub, Bool.or_eq_true] at h ⊢
    rcases h with h | h
    · exact Or.inl (listStartsWith_extend t h)
    · exact Or.inr (ih h)

theorem listHasSub_append_left {pat t : List Char} (s : List Char)
    (h : listHasSub pat t = true) : listHasSub pat (s ++ t) = true := by
  induction s with
  | nil => simpa using h
  | cons c cs ih => simp [listHasSub, ih]

theorem strHasSub_append_right {s a : String} (t : String)
    (h : strHasSub s a = true) : strHasSub (s ++ t) a = true := by
  show listHasSub a.data (s ++ t).data = true
  rw [String.data_append]
  exact listHasSub_append_right t.data h

theorem strHasSub_append_left {t a : String} (s : String)
    (h : strHasSub t a = true) : strHasSub (s ++ t) a = true := by
  show listHasSub a.data (s ++ t).data = true
  rw [String.data_append]
  exact listHasSub_append_left s.data h

/-- Forward direction for a fully valid request: with the blacklist clean,
the executable check passed, a supported cluster and no accumulated
errors, `get_command` returns the 4-tuple of segments. -/
theorem get_command_success {env : Env} {r : CommandRequest}
    (hbl : check_list blacklist (blacklistStrings r) = [])
    (hex : (r.check_executable_existence && !env.executable_exists) = false)
    (hcl : (schedulerOf r.cluster).isSome = true)
    (hq : lbannErrors r = []) :
    get_command env r =
      Except.ok (commandAllocate env r, commandRun env r, lbannCommand r,
        commandRedirect r) := by
  rcases Option.isSome_iff_exists.mp hcl with ⟨s, hs⟩
  simp only [get_command]
  rw [if_neg (by simp [hbl]), if_neg (by simp [hex]), hs, if_neg (by simp [hq])]

/-- Shared forward direction for the accumulated-error exception: with the
gates passed and at least one accumulated error, `get_command` raises the
`Invalid Usage` exception joining all accumulated messages. -/
theorem get_command_invalid_usage {env : Env} {r : CommandRequest}
    (hbl : check_list blacklist (blacklistStrings r) = [])
    (hex : (r.check_executable_existence && !env.executable_exists) = false)
    (hcl : (schedulerOf r.cluster).isSome = true)
    (herr : lbannErrors r ≠ []) :
    get_command env r = Except.error (CmdError.invalidUsage
      ("Invalid Usage: " ++ joinWith " , " (lbannErrors r))) := by
  rcases Option.isSome_iff_exists.mp hcl with ⟨s, hs⟩
  simp only [get_command]
  rw [if_neg (by simp [hbl]), if_neg (by simp [hex]), hs, if_pos herr]

theorem check_list_perElem (substrings : List String) (v : PyVal) :
    (substrings.filterMap fun sub =>
      match v with
      | PyVal.vstr s => if strHasSub s sub then some (s ++ " contains " ++ sub) else none
      | _ => none) =
    (substrings.filter (fun sub => pyStrViolates v sub)).map
      (fun sub => pyStrOf v ++ " contains " ++ sub) := by
  induction substrings with
  | nil => cases v <;> rfl
  | cons a as ih =>
    cases v with
    | vstr s =>
      by_cases h : strHasSub s a = true <;>
        simp [List.filterMap_cons, List.filter_cons, pyStrViolates, pyStrOf, h, ih]
    | vnone => simpa [List.filterMap_cons, List.filter_cons, pyStrViolates] using ih
    | vint n => simpa [List.filterMap_cons, List.filter_cons, pyStrViolates] using ih
    | vbool b => simpa [List.filterMap_cons, List.filter_cons, pyStrViolates] using ih

/-- `check_list` produces exactly one message per (string value, contained
blacklisted substring) pair, in scan order. -/
theorem check_list_pairs (substrings : List String) (l : List PyVal) :
    check_list substrings l =
      l.flatMap (fun v => (substrings.filter (fun sub => pyStrViolates v sub)).map
        (fun sub => pyStrOf v ++ " contains " ++ sub)) := by
  induction l with
  | nil => rfl
  | cons v rest ih =>
    simp only [check_list, List.flatMap_cons, ih, check_list_perElem]

/-- Claim C1: if any string-valued scalar field, or any key or string value
of a dict `extra_lbann_flags`, contains `;` or `--`, `get_command` raises
the fatal invalid-character exception before any other validation or
command construction, and its message lists one `<value> contains
<substring>` entry for every (value, blacklisted substring) pair found. -/
theorem claim1_blacklist_gate (env : Env) (r : CommandRequest)
    (h : ∃ v ∈ blacklistStrings r,
      pyStrViolates v ";" = true ∨ pyStrViolates v "--" = true) :
    get_command env r = Except.error (CmdError.invalidChars
      ("Invalid character(s): " ++
        joinWith " , " (check_list blacklist (blacklistStrings r)))) ∧
    check_list blacklist (blacklistStrings r) =
      (blacklistStrings r).flatMap (fun v =>
        (blacklist.filter (fun sub => pyStrViolates v sub)).map
          (fun sub => pyStrOf v ++ " contains " ++ sub)) := by
  have hpairs := check_list_pairs blacklist (blacklistStrings r)
  refine ⟨?_, hpairs⟩
  have hne : check_list blacklist (blacklistStrings r) ≠ [] := by
    rcases h with ⟨v, hv, hsub⟩
    rw [hpairs]
    intro hnil
    have : ∀ x ∈ blacklistStrings r,
        (blacklist.filter (fun sub => pyStrViolates v sub)).map
          (fun sub => pyStrOf v ++ " contains " ++ sub) = [] → True := fun _ _ _ => trivial
    have hmem : ∃ sub ∈ blacklist, pyStrViolates v sub = true := by
      rcases hsub with hs | hs
      · exact ⟨";", by simp [blacklist], hs⟩
      · exact ⟨"--", by simp [blacklist], hs⟩
    rcases hmem with ⟨sub, hsubmem, hviol⟩
    have : (pyStrOf v ++ " contains " ++ sub) ∈
        (blacklistStrings r).flatMap (fun v =>
          (blacklist.filter (fun sub => pyStrViolates v sub)).map
            (fun sub => pyStrOf v ++ " contains " ++ sub)) := by
      apply List.mem_flatMap.mpr
      exact ⟨v, hv, List.mem_map.mpr ⟨sub, List.mem_filter.mpr ⟨hsubmem, hviol⟩, rfl⟩⟩
    rw [hnil] at this
    cases this
  simp only [get_command]
  rw [if_pos hne]

/-- Claim C3: with no explicit `time_limit` the resolved limit is 35 for
normal runs and 360 for weekly runs, and any supplied value above 360 is
silently clamped to 360. -/
theorem claim3_time_limit_resolution :
    resolveTimeLimit none false = 35 ∧ resolveTimeLimit none true = 360 ∧
      ∀ t : Int, 360 < t → ∀ w : Bool, resolveTimeLimit (some t) w = 360 := by
  refine ⟨rfl, rfl, fun t ht w => ?_⟩
  simp only [resolveTimeLimit]
  rw [if_pos ht]

theorem claim3_witness :
    (360 : Int) < 400 ∧ resolveTimeLimit (some 400) false = 360 :=
  ⟨by decide, claim3_time_limit_resolution.2.2 400 (by decide) false⟩

/-- Claim C8: the resolved time limit entering scheduler dispatch is at most
360, so the `ray`-specific 480-minute clamp is the identity on it (both in
the allocation block and as it persists into the run command) and every
emitted time flag carries the resolved value of at most 360. -/
theorem claim8_ray_clamp_unreachable (t : Option Int) (w : Bool) (c : String) (env : Env) :
    resolveTimeLimit t w ≤ 360 ∧
      rayClamp c (resolveTimeLimit t w) = resolveTimeLimit t w ∧
      lsfTimeAfterAlloc env c (resolveTimeLimit t w) = resolveTimeLimit t w := by
  have hle : resolveTimeLimit t w ≤ 360 := by
    cases t with
    | none => cases w <;> simp [resolveTimeLimit]
    | some t0 =>
      simp only [resolveTimeLimit]
      by_cases h : t0 > 360
      · rw [if_pos h]
      · rw [if_neg h]; omega
  have hray : rayClamp c (resolveTimeLimit t w) = resolveTimeLimit t w := by
    simp only [rayClamp]
    by_cases hc : c = "ray"
    · rw [if_pos hc, if_neg (by omega)]
    · rw [if_neg hc]
  refine ⟨hle, hray, ?_⟩
  simp only [lsfTimeAfterAlloc]
  by_cases ha : lsfAllocating env = true
  · rw [if_pos ha, hray]
  · rw [if_neg ha]

theorem errScan_eq_claim (lines : List String) : ∀ prev : String,
    errScan prev lines =
      (match findMarkerIdx lines with
       | none => ""
       | some i =>
         if errMarkerA (lines.getD i "") then lines.getD i ""
         else if i = 0 then prev else lines.getD (i - 1) "") := by
  induction lines with
  | nil => intro prev; rfl
  | cons l ls ih =>
    intro prev
    by_cases hA : errMarkerA l = true
    · simp [errScan, findMarkerIdx, hA]
    · by_cases hB : errMarkerB l = true
      · simp [errScan, findMarkerIdx, hA, hB]
      · simp only [errScan, findMarkerIdx, hA, hB, Bool.or_self, if_neg, if_false,
          Bool.false_eq_true, ite_false]
        rw [ih l]
        cases hf : findMarkerIdx ls with
        | none => simp
        | some i =>
          simp only [Option.map_some]
          cases i with
          | zero => simp [hA]
          | succ j => simp

/-- Claim C7: `get_error_line` returns the first line containing a group-A
failure marker verbatim; if a `Stack trace:` / `Error is not recoverable`
line comes first it returns the immediately preceding line (the empty
string when there is none); and if no marker is found it returns the empty
string — i.e. it agrees with the claim-shaped `errorLineClaim` on every
log. -/
theorem claim7_get_error_line (lines : List String) :
    get_error_line lines = errorLineClaim lines := by
  rw [get_error_line, errorLineClaim, errScan_eq_claim lines ""]

theorem claim1_witness :
    get_command envFree reqC1 = Except.error (CmdError.invalidChars
      ("Invalid character(s): " ++
        joinWith " , " (check_list blacklist (blacklistStrings reqC1)))) ∧
    check_list blacklist (blacklistStrings reqC1) =
      (blacklistStrings reqC1).flatMap (fun v =>
        (blacklist.filter (fun sub => pyStrViolates v sub)).map
          (fun sub => pyStrOf v ++ " contains " ++ sub)) :=
  claim1_blacklist_gate envFree reqC1 (by decide)

/-- Claim C2: once the blacklist gate passes, application-flag validation
accumulates every violation across the whole field set and `get_command`
raises exactly one exception joining all of them — its message contains
every collected violation message. -/
theorem claim2_error_accumulation (env : Env) (r : CommandRequest)
    (hbl : check_list blacklist (blacklistStrings r) = [])
    (hex : (r.check_executable_existence && !env.executable_exists) = false)
    (hcl : (schedulerOf r.cluster).isSome = true)
    (herr : lbannErrors r ≠ []) :
    get_command env r = Except.error (CmdError.invalidUsage
      ("Invalid Usage: " ++ joinWith " , " (lbannErrors r))) ∧
    ∀ e ∈ lbannErrors r,
      strHasSub ("Invalid Usage: " ++ joinWith " , " (lbannErrors r)) e = true :=
  ⟨get_command_invalid_usage hbl hex hcl herr,
   fun _ he => strHasSub_joinWith " , " he⟩

theorem claim2_witness :
    get_command envFree reqC2 = Except.error (CmdError.invalidUsage
      ("Invalid Usage: " ++ joinWith " , " (lbannErrors reqC2))) ∧
    ∀ e ∈ lbannErrors reqC2,
      strHasSub ("Invalid Usage: " ++ joinWith " , " (lbannErrors reqC2)) e = true :=
  claim2_error_accumulation envFree reqC2 (by decide) (by decide) (by decide) (by decide)

/-- Counterexample to claim C4 as frozen: with `model_path` and
`model_folder` both set but `dir_name` unset, `get_command` raises the
`dir_name is not set` message, which does not contain the text the claim
requires. -/
theorem claim4_counterexample :
    get_command envFree reqC4 = Except.error (CmdError.invalidUsage
      "Invalid Usage: dir_name is not set but at least one of model_folder, model_name, data_reader_name, optimizer_name is.") ∧
    strHasSub
      "Invalid Usage: dir_name is not set but at least one of model_folder, model_name, data_reader_name, optimizer_name is."
      "model_path is set but so is at least one of model folder and model_name" = false :=
  ⟨by decide, by decide⟩

/-- Claim C4 (amended): when `model_path` and `model_folder` are both set
AND `dir_name` is also set (and the blacklist/executable/cluster gates
pass), `get_command` raises an exception whose message contains
`model_path is set but so is at least one of model folder and model_name`;
with `dir_name` unset the raised message is the `dir_name is not set` one
instead. -/
theorem claim4_model_path_conflict (env : Env) (r : CommandRequest)
    (hbl : check_list blacklist (blacklistStrings r) = [])
    (hex : (r.check_executable_existence && !env.executable_exists) = false)
    (hcl : (schedulerOf r.cluster).isSome = true)
    (hd : r.dir_name.isSome = true)
    (hmp : r.model_path.isSome = true)
    (hmf : r.model_folder.isSome = true) :
    ∃ msg, get_command env r = Except.error (CmdError.invalidUsage msg) ∧
      strHasSub msg
        "model_path is set but so is at least one of model folder and model_name" = true := by
  have hmem : "model_path is set but so is at least one of model folder and model_name" ∈
      lbannErrors r := by
    rcases Option.isSome_iff_exists.mp hd with ⟨d, hd2⟩
    rcases Option.isSome_iff_exists.mp hmp with ⟨mp, hmp2⟩
    simp [lbannErrors, modelBlock, hd2, hmp2, hmf]
  exact ⟨_, get_command_invalid_usage hbl hex hcl (List.ne_nil_of_mem hmem),
    strHasSub_joinWith " , " hmem⟩

theorem claim4_witness :
    ∃ msg, get_command envFree reqC4a = Except.error (CmdError.invalidUsage msg) ∧
      strHasSub msg
        "model_path is set but so is at least one of model folder and model_name" = true :=
  claim4_model_path_conflict envFree reqC4a (by decide) (by decide) (by decide)
    (by decide) (by decide) (by decide)

/-- Counterexample to claim C5 as frozen: on `ray` with a partition
supplied, the source emits the queue flag between the task-count flag and
the processes-per-host flag, not after them as the claim orders the flags. -/
theorem claim5_counterexample :
    get_command envFree reqC5 = Except.ok
      ("bsub -x -G guests -Is -n 4 -q pbatch -R \"span[ptile=2]\" -W 60",
       " mpirun --timeout=60 -np 4 -N 2", "exe --data_reader_percent=0.1", "") ∧
    "bsub -x -G guests -Is -n 4 -q pbatch -R \"span[ptile=2]\" -W 60" ≠
      c5SpecAllocation reqC5 :=
  ⟨by decide, by decide⟩

/-- Claim C5 (amended): for an lsf run with no pre-existing allocation the
allocation segment is `bsub`, the exclusive-host flag (omitted only on
lassen), the fairshare group flag, the interactive-shell flag, then the
task-count flag (non-lassen, when a process count is given), THEN the
optional queue/partition flag, then on lassen the `-nnodes` node-count
flag, then (non-lassen, when process count and a nonzero node count are
given) the processes-per-host flag `ceil(processes / nodes)`, and last the
time-limit flag with the ray 480-minute cap applied. -/
theorem claim5_allocation_order (env : Env) (r : CommandRequest)
    (out : String × String × String × String)
    (hlsf : schedulerOf r.cluster = some "lsf")
    (hh : env.lsb_hosts = none) (hj : env.lsb_jobid = none)
    (hok : get_command env r = Except.ok out) :
    out.1 = "bsub" ++ (if r.cluster = "lassen" then "" else " -x") ++ " -G guests" ++
      " -Is" ++
      (if r.cluster = "lassen" then ""
       else match r.num_processes with
         | some p => " -n " ++ toString p
         | none => "") ++
      (match r.partition with
       | some q => " -q " ++ q
       | none => "") ++
      (if r.cluster = "lassen" then " -nnodes " ++ pyShowOptInt r.num_nodes else "") ++
      (if r.cluster = "lassen" then ""
       else match r.num_processes, r.num_nodes with
         | some p, some n =>
           if n ≠ 0 then " -R \"span[ptile=" ++ toString (ceilDiv p n) ++ "]\"" else ""
         | _, _ => "") ++
      " -W " ++ toString (rayClamp r.cluster (resolveTimeLimit r.time_limit r.weekly)) := by
  have h1 : out.1 = commandAllocate env r := by rw [(get_command_ok hok).1]
  rw [h1]
  simp only [commandAllocate, hlsf]
  by_cases hcl : r.cluster = "lassen"
  · simp [lsfAllocate, lsfAllocating, hh, hj, hcl, String.append_assoc]
  · simp [lsfAllocate, lsfAllocating, hh, hj, hcl, String.append_assoc]

theorem claim5_witness :
    (("bsub -x -G guests -Is -n 4 -q pbatch -R \"span[ptile=2]\" -W 60",
      " mpirun --timeout=60 -np 4 -N 2", "exe --data_reader_percent=0.1", "") :
        String × String × String × String).1 =
      "bsub" ++ (if reqC5.cluster = "lassen" then "" else " -x") ++ " -G guests" ++
      " -Is" ++
      (if reqC5.cluster = "lassen" then ""
       else match reqC5.num_processes with
         | some p => " -n " ++ toString p
         | none => "") ++
      (match reqC5.partition with
       | some q => " -q " ++ q
       | none => "") ++
      (if reqC5.cluster = "lassen" then " -nnodes " ++ pyShowOptInt reqC5.num_nodes
       else "") ++
      (if reqC5.cluster = "lassen" then ""
       else match reqC5.num_processes, reqC5.num_nodes with
         | some p, some n =>
           if n ≠ 0 then " -R \"span[ptile=" ++ toString (ceilDiv p n) ++ "]\"" else ""
         | _, _ => "") ++
      " -W " ++
      toString (rayClamp reqC5.cluster (resolveTimeLimit reqC5.time_limit reqC5.weekly)) :=
  claim5_allocation_order envFree reqC5
    ("bsub -x -G guests -Is -n 4 -q pbatch -R \"span[ptile=2]\" -W 60",
     " mpirun --timeout=60 -np 4 -N 2", "exe --data_reader_percent=0.1", "")
    (by decide) rfl rfl (by decide)

/-- Claim C6: on lassen any requested process count above 16 is silently
reduced to 16, so the run segment carries `-n 16` (and never the requested
value). -/
theorem claim6_lassen_cap (env : Env) (r : CommandRequest)
    (out : String × String × String × String) (p : Int)
    (hcl : r.cluster = "lassen") (hp : r.num_processes = some p) (h16 : 16 < p)
    (hok : get_command env r = Except.ok out) :
    out.2.1 = (if commandAllocate env r = "" then "" else " ") ++
      "jsrun -b \"packed:10\" -c 40 -g 4 -d packed -n 16 -r 1 -a 4" := by
  have h1 : out.2.1 = commandRun env r := by rw [(get_command_ok hok).1]
  have hsch : schedulerOf r.cluster = some "lsf" := by simp [schedulerOf, hcl]
  have hca : commandAllocate env r =
      lsfAllocate env r (resolveTimeLimit r.time_limit r.weekly) := by
    simp only [commandAllocate, hsch]
  rw [h1]
  simp only [commandRun, hsch, lsfRun, hcl, hp, if_pos]
  rw [if_pos h16, hca]
  simp only [String.append_assoc]
  congr 1

theorem claim6_witness :
    (("", "jsrun -b \"packed:10\" -c 40 -g 4 -d packed -n 16 -r 1 -a 4",
      "exe --data_reader_percent=0.1", "") : String × String × String × String).2.1 =
      (if commandAllocate envAllocated reqC6 = "" then "" else " ") ++
      "jsrun -b \"packed:10\" -c 40 -g 4 -d packed -n 16 -r 1 -a 4" :=
  claim6_lassen_cap envAllocated reqC6
    ("", "jsrun -b \"packed:10\" -c 40 -g 4 -d packed -n 16 -r 1 -a 4",
     "exe --data_reader_percent=0.1", "") 32 rfl rfl (by decide) (by decide)

/-- Claim C9: on lassen with no pre-existing allocation and `num_nodes`
unset, the `-nnodes` flag is still emitted, interpolating the missing node
count as the text `None`. -/
theorem claim9_nnodes_none (env : Env) (r : CommandRequest)
    (out : String × String × String × String)
    (hcl : r.cluster = "lassen") (hh : env.lsb_hosts = none) (hj : env.lsb_jobid = none)
    (hn : r.num_nodes = none)
    (hok : get_command env r = Except.ok out) :
    strHasSub out.1 " -nnodes None" = true := by
  have h1 : out.1 = commandAllocate env r := by rw [(get_command_ok hok).1]
  have hsch : schedulerOf r.cluster = some "lsf" := by simp [schedulerOf, hcl]
  rw [h1]
  simp only [commandAllocate, hsch, lsfAllocate, lsfAllocating, hh, hj, hcl, hn,
    pyShowOptInt, Option.isNone_none, Bool.and_self, if_pos, ite_true, ne_eq,
    not_true_eq_false, ite_false, if_true]
  apply strHasSub_append_right
  apply strHasSub_append_right
  apply strHasSub_append_left
  decide

theorem claim9_witness :
    strHasSub (("bsub -G guests -Is -q pbatch -nnodes None -W 35", " jsrun",
      "exe --data_reader_percent=0.1", "") : String × String × String × String).1
      " -nnodes None" = true :=
  claim9_nnodes_none envFree reqC9
    ("bsub -G guests -Is -q pbatch -nnodes None -W 35", " jsrun",
     "exe --data_reader_percent=0.1", "") rfl rfl rfl rfl (by decide)

/-- Claim C10: setting `metadata` while `dir_name` is unset does not
trigger the dir_name requirement — a request that is otherwise free of
violations succeeds — and the application segment then contains the
literal text `--metadata=None/<metadata>`. -/
theorem claim10_metadata_none (env : Env) (r : CommandRequest) (m : String)
    (hm : r.metadata = some m) (hd : r.dir_name = none)
    (hbl : check_list blacklist (blacklistStrings r) = [])
    (hex : (r.check_executable_existence && !env.executable_exists) = false)
    (hcl : (schedulerOf r.cluster).isSome = true)
    (hq : lbannErrors r = []) :
    ∃ out2, get_command env r = Except.ok out2 ∧
      strHasSub out2.2.2.1 ("--metadata=None/" ++ m) = true := by
  refine ⟨_, get_command_success hbl hex hcl hq, ?_⟩
  show strHasSub (lbannCommand r) ("--metadata=None/" ++ m) = true
  rw [lbannCommand]
  apply strHasSub_append_right
  apply strHasSub_append_right
  apply strHasSub_append_right
  apply strHasSub_append_right
  apply strHasSub_append_right
  apply strHasSub_append_right
  apply strHasSub_append_left
  simp only [optionMetadata, hm, hd, pyShowOptStr]
  apply strHasSub_of_split _ _ " " ""
  have hlit : (" --metadata=" ++ "None" ++ "/" : String) = " " ++ "--metadata=None/" := by
    decide
  rw [String.append_empty, ← String.append_assoc, ← hlit]

theorem claim10_witness :
    ∃ out2, get_command envFree reqC10 = Except.ok out2 ∧
      strHasSub out2.2.2.1 ("--metadata=None/" ++ "meta.txt") = true :=
  claim10_metadata_none envFree reqC10 "meta.txt" rfl rfl (by decide) (by decide)
    (by decide) (by decide)
